import Mathlib

/-!
Shallow embedding of `src/manim/_config/__init__.py` (module initialization and
the `tempconfig` context manager) together with the parts of its collaborators
that the module's contract depends on (`ManimConfig.copy` / `update` / item
assignment, which live in `manim/_config/utils.py`, a file outside the provided
sources, and are therefore modelled from the specification).

Configuration values are modelled generically by a type `α`; a configuration
object is its backing dictionary, an association list from `String` keys to
values (Python dict keys are unique; theorems that need this carry a `Nodup`
hypothesis on the key list).  Object identity — which Python distinguishes from
value equality and which the `tempconfig` docstring comment insists on
preserving ("update(), DO NOT use assignment") — is modelled by tagging the
global config binding with a numeric identity that only rebinding would change.
-/

set_option maxHeartbeats 1000000

/-- Key lookup in a dictionary represented as an association list: the value at
the first occurrence of the key, if any (Python dict keys are unique, so the
first occurrence is the only one). -/
def lookupKey {α : Type} : List (String × α) → String → Option α
  | [], _ => none
  | (k', v) :: rest, k => if k' = k then some v else lookupKey rest k

/-- The configuration container consumed by `src/manim/_config/__init__.py`:
its backing dictionary of option values.  (The validation logic of the real
`ManimConfig` lives outside the provided sources; the claims only depend on
the dictionary contract stated in the spec.) -/
structure ManimConfig (α : Type) where
  entries : List (String × α)
  deriving DecidableEq

/-- Membership test `key in config`. -/
def ManimConfig.contains {α : Type} (c : ManimConfig α) (k : String) : Bool :=
  (lookupKey c.entries k).isSome

/-- Item access `config[key]`. -/
def ManimConfig.get {α : Type} (c : ManimConfig α) (k : String) : Option α :=
  lookupKey c.entries k

/-- The key set (as a list, in dictionary order) of the configuration. -/
def ManimConfig.keys {α : Type} (c : ManimConfig α) : List String :=
  c.entries.map Prod.fst

/-- Modelled from the spec: `ManimConfig.copy` (defined in
`manim/_config/utils.py`, not among the provided sources) "produces an
independent snapshot whose values are detached from the original".  In this
pure embedding state is passed by value, so the snapshot is the value itself;
independence is inherent. -/
def ManimConfig.copy {α : Type} (c : ManimConfig α) : ManimConfig α := c

/-- How `update` transforms a single stored entry: if the update mapping `m`
has the entry's key, the value is replaced, otherwise the entry is kept. -/
def updateEntry {α : Type} (m : List (String × α)) (e : String × α) : String × α :=
  (e.1, match lookupKey m e.1 with
        | some w => w
        | none => e.2)

/-- Modelled from the spec: `ManimConfig.update` (defined in
`manim/_config/utils.py`, not among the provided sources) is "bulk in-place
mutation of existing keys only"; "no new keys may be introduced through
`update`".  Every existing key present in the mapping gets the mapping's
value; all other entries are untouched; keys of the mapping absent from the
config are ignored. -/
def ManimConfig.update {α : Type} (c : ManimConfig α) (m : List (String × α)) :
    ManimConfig α :=
  ⟨c.entries.map (updateEntry m)⟩

/-- Modelled from the spec: item assignment `config[k] = v` changes only the
value of an existing key ("keys present at digest time are immutable in set;
only values change"). -/
def ManimConfig.setItem {α : Type} (c : ManimConfig α) (k : String) (v : α) :
    ManimConfig α :=
  c.update [(k, v)]

/-- The process-wide binding `config`: the identity of the object the global
name is bound to, plus the object's current contents.  In-place mutation
changes `config` but keeps `configId`; only rebinding the global name (which
`tempconfig` deliberately never does) would change `configId`. -/
@[ext]
structure ConfigState (α : Type) where
  configId : Nat
  config : ManimConfig α
  deriving DecidableEq

/-- The mutations the enclosed scope can apply to the live config through its
public interface: item assignment and bulk update.  (Rebinding the global name
is excluded by convention, as the spec states.) -/
inductive ConfigOp (α : Type) where
  | setItem : String → α → ConfigOp α
  | update : List (String × α) → ConfigOp α

/-- Apply one in-place mutation to the global binding: the contents change,
the identity does not. -/
def ConfigState.applyOp {α : Type} (s : ConfigState α) : ConfigOp α → ConfigState α
  | ConfigOp.setItem k v => ⟨s.configId, s.config.setItem k v⟩
  | ConfigOp.update m => ⟨s.configId, s.config.update m⟩

/-- Apply a sequence of in-place mutations. -/
def ConfigState.applyOps {α : Type} (s : ConfigState α) (ops : List (ConfigOp α)) :
    ConfigState α :=
  ops.foldl ConfigState.applyOp s

/-- How the block enclosed by a `with tempconfig(...)` scope terminates:
normally, or by raising an error `e`. -/
inductive BlockOutcome (ε : Type) where
  | ok : BlockOutcome ε
  | raised : ε → BlockOutcome ε
  deriving DecidableEq

/-- The enclosed block of a `with tempconfig(...)` statement: the config
mutations it performs, and how it terminates. -/
structure Block (α ε : Type) where
  ops : List (ConfigOp α)
  outcome : BlockOutcome ε

/-- The filtering step of `tempconfig`:
`temp = {k: v for k, v in temp.items() if k in original}`. -/
def tempconfig.filterTemp {α : Type} (temp : List (String × α))
    (original : ManimConfig α) : List (String × α) :=
  temp.filter (fun kv => original.contains kv.1)

/-- The state of the global config just after entering the scope: the body of
`tempconfig` up to and including `config.update(temp)` —
`original = config.copy()`, the key filtering, then the in-place update. -/
def tempconfig.enter {α : Type} (temp : List (String × α)) (s : ConfigState α) :
    ConfigState α :=
  s.applyOp (ConfigOp.update (tempconfig.filterTemp temp s.config.copy))

/-- The whole `tempconfig` context manager, from
`src/manim/_config/__init__.py`: snapshot `original = config.copy()`, filter
the overrides to keys of `original`, apply them with `config.update(temp)`,
yield to the enclosed block, and in the `finally` clause restore with
`config.update(original)`.  The result couples the state of the global
binding at the moment control returns to the caller with the outcome that
propagates to the caller; the restoring update is applied before the pair is
returned, i.e. before the outcome (error included) reaches the caller. -/
def tempconfig.run {α ε : Type} (temp : List (String × α)) (body : Block α ε)
    (s : ConfigState α) : ConfigState α × BlockOutcome ε :=
  let original := s.config.copy
  let temp' := tempconfig.filterTemp temp original
  let s1 := s.applyOp (ConfigOp.update temp')
  let s2 := s1.applyOps body.ops
  let s3 := s2.applyOp (ConfigOp.update original.entries)
  (s3, body.outcome)

/-- The top-level statements of `src/manim/_config/__init__.py`, in source
order, as trace events.  `makeLogger` is the call
`logger, console, error_console = make_logger(...)`; `suppressPIL` and
`suppressMatplotlib` are the two module-level statements
`logging.getLogger("PIL").setLevel(logging.INFO)` and
`logging.getLogger("matplotlib").setLevel(logging.INFO)`; `digestConfig` is
`config = ManimConfig().digest_parser(parser)`; `makeFrame` is
`frame = ManimFrame(config)`. -/
inductive InitStep where
  | buildParser
  | makeLogger
  | parseCliCtx
  | suppressPIL
  | suppressMatplotlib
  | digestConfig
  | makeFrame
  deriving DecidableEq, BEq

/-- Modelled from the spec: `ManimFrame` (defined in
`manim/_config/utils.py`, not among the provided sources) is "a thin derived
object wrapping `config`" — a view of the config singleton, recorded here by
the identity of the object it wraps. -/
structure ManimFrame where
  targetId : Nat
  deriving DecidableEq

/-- The module-level names bound by `src/manim/_config/__init__.py` when
initialization succeeds: the logger triple (abstracted to one value of the
external factory's result type `L`), the parsed CLI-context settings, the
live config singleton binding, and the `ManimFrame` view of it. -/
structure ModuleGlobals (α L K : Type) where
  logger : L
  cliCtx : K
  configState : ConfigState α
  frame : ManimFrame
  deriving DecidableEq

/-- Module initialization of `src/manim/_config/__init__.py`, executed once at
import: build the parser, build the logger triple, parse the CLI-context
settings, force the "PIL" and "matplotlib" loggers to INFO level (two explicit
module-level statements), digest the parser into the config singleton, and
wrap the singleton in a `ManimFrame`.  The external collaborators are
parameters: `mkParser` models `make_config_parser()` and `digest` models
`ManimConfig().digest_parser(parser)`, both of which the spec says may fail
with a fatal parse/validation error (`Except.error`); `mkLogger` models
`make_logger` and `mkCliCtx` models `parse_cli_ctx`.  The result is the trace
of executed statements plus either the bound globals or the propagated error;
a statement that raises ends the trace immediately.

`moduleInitDigest` is the tail of the sequence from the digestion statement
on, reached once the parser has been built successfully. -/
def moduleInitDigest {π ε α L K : Type} (p : π) (mkLogger : π → L)
    (mkCliCtx : π → K) (digest : π → Except ε (ManimConfig α)) :
    List InitStep × Except ε (ModuleGlobals α L K) :=
  match digest p with
  | Except.error e =>
    ([InitStep.buildParser, InitStep.makeLogger, InitStep.parseCliCtx,
      InitStep.suppressPIL, InitStep.suppressMatplotlib, InitStep.digestConfig],
     Except.error e)
  | Except.ok c =>
    ([InitStep.buildParser, InitStep.makeLogger, InitStep.parseCliCtx,
      InitStep.suppressPIL, InitStep.suppressMatplotlib, InitStep.digestConfig,
      InitStep.makeFrame],
     Except.ok ⟨mkLogger p, mkCliCtx p, ⟨0, c⟩, ⟨0⟩⟩)

/-- The whole initialization sequence: the parser-building statement followed,
when it succeeds, by the rest of the module body (`moduleInitDigest`). -/
def moduleInit {π ε α L K : Type} (mkParser : Except ε π) (mkLogger : π → L)
    (mkCliCtx : π → K) (digest : π → Except ε (ManimConfig α)) :
    List InitStep × Except ε (ModuleGlobals α L K) :=
  match mkParser with
  | Except.error e => ([InitStep.buildParser], Except.error e)
  | Except.ok p => moduleInitDigest p mkLogger mkCliCtx digest

/-- The reading of the claim that the PIL/matplotlib suppression "occurs as a
side effect of constructing the logger via the make_logger factory": since the
`make_logger` call returns before the `parse_cli_ctx` statement runs, a side
effect of that call would appear in the initialization trace strictly before
the `parseCliCtx` event. -/
def suppressionDuringMakeLogger (trace : List InitStep) : Prop :=
  trace.indexOf InitStep.suppressPIL < trace.indexOf InitStep.parseCliCtx

/-! ### Helper lemmas -/

theorem lookupKey_cons_of_ne {α : Type} {k' k : String} (v : α)
    (l : List (String × α)) (hne : k' ≠ k) :
    lookupKey ((k', v) :: l) k = lookupKey l k := by
  simp [lookupKey, hne]

theorem lookupKey_isSome_iff_mem {α : Type} (l : List (String × α)) (k : String) :
    (lookupKey l k).isSome = true ↔ k ∈ l.map Prod.fst := by
  induction l with
  | nil => simp [lookupKey]
  | cons e t ih =>
    obtain ⟨k', v⟩ := e
    by_cases h : k' = k
    · subst h
      simp [lookupKey]
    · rw [lookupKey_cons_of_ne v t h]
      simp only [List.map_cons, List.mem_cons, ih]
      constructor
      · exact Or.inr
      · rintro (rfl | hm)
        · exact absurd rfl h
        · exact hm

theorem contains_iff_mem_keys {α : Type} (c : ManimConfig α) (k : String) :
    c.contains k = true ↔ k ∈ c.keys :=
  lookupKey_isSome_iff_mem c.entries k

theorem updateEntry_fst {α : Type} (m : List (String × α)) (e : String × α) :
    (updateEntry m e).1 = e.1 := rfl

theorem keys_update {α : Type} (c : ManimConfig α) (m : List (String × α)) :
    (c.update m).keys = c.keys := by
  show (c.entries.map (updateEntry m)).map Prod.fst = c.entries.map Prod.fst
  rw [List.map_map]
  congr 1

theorem keys_setItem {α : Type} (c : ManimConfig α) (k : String) (v : α) :
    (c.setItem k v).keys = c.keys :=
  keys_update c [(k, v)]

theorem applyOp_configId {α : Type} (s : ConfigState α) (op : ConfigOp α) :
    (s.applyOp op).configId = s.configId := by
  cases op <;> rfl

theorem applyOp_keys {α : Type} (s : ConfigState α) (op : ConfigOp α) :
    (s.applyOp op).config.keys = s.config.keys := by
  cases op with
  | setItem k v => exact keys_setItem s.config k v
  | update m => exact keys_update s.config m

theorem applyOps_configId {α : Type} (ops : List (ConfigOp α)) (s : ConfigState α) :
    (s.applyOps ops).configId = s.configId := by
  induction ops generalizing s with
  | nil => rfl
  | cons op rest ih =>
    have h : s.applyOps (op :: rest) = (s.applyOp op).applyOps rest := rfl
    rw [h, ih, applyOp_configId]

theorem applyOps_keys {α : Type} (ops : List (ConfigOp α)) (s : ConfigState α) :
    (s.applyOps ops).config.keys = s.config.keys := by
  induction ops generalizing s with
  | nil => rfl
  | cons op rest ih =>
    have h : s.applyOps (op :: rest) = (s.applyOp op).applyOps rest := rfl
    rw [h, ih, applyOp_keys]

theorem map_updateEntry_cons_of_ne {α : Type} (k1 : String) (v1 : α)
    (t1 t2 : List (String × α)) (hk : ∀ e ∈ t2, e.1 ≠ k1) :
    t2.map (updateEntry ((k1, v1) :: t1)) = t2.map (updateEntry t1) := by
  induction t2 with
  | nil => rfl
  | cons e t ih =>
    have hne : k1 ≠ e.1 := fun hh => (hk e (List.mem_cons_self e t)) hh.symm
    rw [List.map_cons, List.map_cons,
      ih (fun x hx => hk x (List.mem_cons_of_mem e hx))]
    congr 1
    unfold updateEntry
    rw [lookupKey_cons_of_ne v1 t1 hne]

theorem restore_map {α : Type} (l1 l2 : List (String × α))
    (h : l2.map Prod.fst = l1.map Prod.fst)
    (hnd : (l1.map Prod.fst).Nodup) :
    l2.map (updateEntry l1) = l1 := by
  induction l2 generalizing l1 with
  | nil =>
    cases l1 with
    | nil => rfl
    | cons e t => simp at h
  | cons e2 t2 ih =>
    cases l1 with
    | nil => simp at h
    | cons e1 t1 =>
      obtain ⟨k2, v2⟩ := e2
      obtain ⟨k1, v1⟩ := e1
      simp only [List.map_cons, List.cons.injEq] at h
      obtain ⟨hk, ht⟩ := h
      subst hk
      simp only [List.map_cons, List.nodup_cons] at hnd
      obtain ⟨hk1, hnd1⟩ := hnd
      rw [List.map_cons]
      have hhead : updateEntry ((k2, v1) :: t1) (k2, v2) = (k2, v1) := by
        simp [updateEntry, lookupKey]
      have htail : ∀ e ∈ t2, e.1 ≠ k2 := by
        intro e he hcontra
        exact hk1 (by rw [← ht, ← hcontra]; exact List.mem_map_of_mem Prod.fst he)
      rw [hhead, map_updateEntry_cons_of_ne k2 v1 t1 t2 htail, ih t1 ht hnd1]

theorem update_restore {α : Type} (c orig : ManimConfig α)
    (h : c.keys = orig.keys) (hnd : orig.keys.Nodup) :
    c.update orig.entries = orig := by
  obtain ⟨l2⟩ := c
  obtain ⟨l1⟩ := orig
  exact congrArg ManimConfig.mk (restore_map l1 l2 h hnd)

theorem lookup_map_update_of_some {α : Type} (l m : List (String × α))
    (k : String) (w : α) (hl : (lookupKey l k).isSome = true)
    (hm : lookupKey m k = some w) :
    lookupKey (l.map (updateEntry m)) k = some w := by
  induction l with
  | nil => simp [lookupKey] at hl
  | cons e t ih =>
    obtain ⟨k', v⟩ := e
    by_cases h : k' = k
    · subst h
      simp [lookupKey, updateEntry, hm]
    · rw [lookupKey_cons_of_ne v t h] at hl
      rw [List.map_cons]
      have : (updateEntry m (k', v)).1 = k' := rfl
      calc lookupKey (updateEntry m (k', v) :: t.map (updateEntry m)) k
          = lookupKey (t.map (updateEntry m)) k := by
            rw [show updateEntry m (k', v)
                = ((updateEntry m (k', v)).1, (updateEntry m (k', v)).2) from rfl]
            exact lookupKey_cons_of_ne _ _ (by rw [this]; exact h)
        _ = some w := ih hl

theorem lookup_map_update_of_none {α : Type} (l m : List (String × α))
    (k : String) (hm : lookupKey m k = none) :
    lookupKey (l.map (updateEntry m)) k = lookupKey l k := by
  induction l with
  | nil => rfl
  | cons e t ih =>
    obtain ⟨k', v⟩ := e
    by_cases h : k' = k
    · subst h
      simp [lookupKey, updateEntry, hm]
    · rw [List.map_cons, lookupKey_cons_of_ne v t h]
      have hfst : (updateEntry m (k', v)).1 = k' := rfl
      rw [show updateEntry m (k', v)
          = ((updateEntry m (k', v)).1, (updateEntry m (k', v)).2) from rfl]
      rw [lookupKey_cons_of_ne _ _ (by rw [hfst]; exact h)]
      exact ih

theorem lookupKey_filterTemp_of_contains {α : Type} (temp : List (String × α))
    (c : ManimConfig α) (k : String) (hc : c.contains k = true) :
    lookupKey (tempconfig.filterTemp temp c) k = lookupKey temp k := by
  induction temp with
  | nil => rfl
  | cons e t ih =>
    obtain ⟨k', v⟩ := e
    unfold tempconfig.filterTemp at ih ⊢
    rw [List.filter_cons]
    by_cases h : k' = k
    · subst h
      simp only [hc, if_true]
      simp [lookupKey]
    · by_cases hkeep : c.contains k' = true
      · simp only [hkeep, if_true]
        rw [lookupKey_cons_of_ne v _ h, lookupKey_cons_of_ne v t h]
        exact ih
      · simp only [Bool.not_eq_true] at hkeep
        simp only [hkeep, Bool.false_eq_true, if_false]
        rw [lookupKey_cons_of_ne v t h]
        exact ih

theorem lookupKey_filterTemp_of_not_contains {α : Type} (temp : List (String × α))
    (c : ManimConfig α) (k : String) (hc : c.contains k = false) :
    lookupKey (tempconfig.filterTemp temp c) k = none := by
  induction temp with
  | nil => rfl
  | cons e t ih =>
    obtain ⟨k', v⟩ := e
    unfold tempconfig.filterTemp at ih ⊢
    rw [List.filter_cons]
    by_cases hkeep : c.contains k' = true
    · have h : k' ≠ k := by
        intro hh
        rw [hh, hc] at hkeep
        exact Bool.false_ne_true hkeep
      simp only [hkeep, if_true]
      rw [lookupKey_cons_of_ne v _ h]
      exact ih
    · simp only [Bool.not_eq_true] at hkeep
      simp only [hkeep, Bool.false_eq_true, if_false]
      exact ih

theorem run_state_config {α ε : Type} (temp : List (String × α))
    (body : Block α ε) (s : ConfigState α) :
    (tempconfig.run temp body s).1.config
      = (((tempconfig.enter temp s).applyOps body.ops).config).update s.config.entries :=
  rfl

theorem run_keys {α ε : Type} (temp : List (String × α)) (body : Block α ε)
    (s : ConfigState α) :
    (tempconfig.run temp body s).1.config.keys = s.config.keys := by
  rw [run_state_config, keys_update, applyOps_keys]
  exact applyOp_keys s (ConfigOp.update (tempconfig.filterTemp temp s.config.copy))

theorem run_config_restored {α ε : Type} (temp : List (String × α))
    (body : Block α ε) (s : ConfigState α) (hnd : s.config.keys.Nodup) :
    (tempconfig.run temp body s).1.config = s.config := by
  rw [run_state_config]
  apply update_restore
  · rw [applyOps_keys]
    exact applyOp_keys s (ConfigOp.update (tempconfig.filterTemp temp s.config.copy))
  · exact hnd

theorem run_configId {α ε : Type} (temp : List (String × α)) (body : Block α ε)
    (s : ConfigState α) :
    (tempconfig.run temp body s).1.configId = s.configId := by
  rw [show (tempconfig.run temp body s).1
      = ((s.applyOp (ConfigOp.update (tempconfig.filterTemp temp
            s.config.copy))).applyOps body.ops).applyOp
          (ConfigOp.update s.config.copy.entries) from rfl]
  rw [applyOp_configId, applyOps_configId, applyOp_configId]

theorem contains_congr_keys {α : Type} (c c' : ManimConfig α) (k : String)
    (h : c.keys = c'.keys) : c.contains k = c'.contains k := by
  have h1 := contains_iff_mem_keys c k
  have h2 := contains_iff_mem_keys c' k
  rw [h] at h1
  by_cases hm : k ∈ c'.keys
  · rw [h1.mpr hm, h2.mpr hm]
  · have e1 : ¬ c.contains k = true := fun hh => hm (h1.mp hh)
    have e2 : ¬ c'.contains k = true := fun hh => hm (h2.mp hh)
    rw [Bool.not_eq_true] at e1 e2
    rw [e1, e2]

theorem enter_keys {α : Type} (temp : List (String × α)) (s : ConfigState α) :
    (tempconfig.enter temp s).config.keys = s.config.keys :=
  applyOp_keys s (ConfigOp.update (tempconfig.filterTemp temp s.config.copy))

/-! ### Claims -/

/-- Claim C1: for every configuration state and every override mapping
(unknown keys included), if the enclosed block completes normally then after
the scope exits every key of the global config has the value it had
immediately before entry — the config is value-equal to its pre-entry state.
The `Nodup` hypothesis is the dictionary invariant of the backing Python
dict (keys are unique). -/
theorem tempconfig_restores_on_normal_exit {α ε : Type} (s : ConfigState α)
    (temp : List (String × α)) (body : Block α ε)
    (_hok : body.outcome = BlockOutcome.ok)
    (hnd : s.config.keys.Nodup) :
    (tempconfig.run temp body s).1.config = s.config :=
  run_config_restored temp body s hnd

/-- Witness for C1: concrete scope with an override, an unknown key, and a
block that mutates the config; the config after exit equals the one before
entry. -/
theorem tempconfig_restores_on_normal_exit_witness :
    (tempconfig.run [("frame_height", (100 : Nat)), ("bogus_key", 1)]
        (⟨[ConfigOp.setItem "frame_height" 3], BlockOutcome.ok⟩ : Block Nat Nat)
        ⟨0, ⟨[("frame_height", 8), ("frame_width", 14)]⟩⟩).1.config
      = ⟨[("frame_height", 8), ("frame_width", 14)]⟩ :=
  tempconfig_restores_on_normal_exit _ _ _ rfl (by decide)

/-- Claim C2: when the enclosed block raises an error, the restoring update
runs first on the exit path (the state coupled with the propagated outcome is
the fully restored pre-entry state), and the same error then propagates to
the caller unchanged — neither suppressed nor replaced. -/
theorem tempconfig_restores_then_propagates_error {α ε : Type}
    (s : ConfigState α) (temp : List (String × α)) (ops : List (ConfigOp α))
    (e : ε) (hnd : s.config.keys.Nodup) :
    tempconfig.run temp ⟨ops, BlockOutcome.raised e⟩ s
      = (s, BlockOutcome.raised e) := by
  have h1 : (tempconfig.run temp ⟨ops, BlockOutcome.raised e⟩ s).1 = s :=
    ConfigState.ext (run_configId temp ⟨ops, BlockOutcome.raised e⟩ s)
      (run_config_restored temp ⟨ops, BlockOutcome.raised e⟩ s hnd)
  calc tempconfig.run temp ⟨ops, BlockOutcome.raised e⟩ s
      = ((tempconfig.run temp ⟨ops, BlockOutcome.raised e⟩ s).1,
         (tempconfig.run temp ⟨ops, BlockOutcome.raised e⟩ s).2) := rfl
    _ = (s, BlockOutcome.raised e) := by rw [h1]; rfl

/-- Witness for C2: a block that mutates the config and then raises error 7;
the scope returns the restored state together with error 7. -/
theorem tempconfig_restores_then_propagates_error_witness :
    tempconfig.run [("frame_height", (100 : Nat))]
        (⟨[ConfigOp.update [("frame_height", 55)]],
           BlockOutcome.raised 7⟩ : Block Nat Nat)
        ⟨0, ⟨[("frame_height", 8)]⟩⟩
      = (⟨0, ⟨[("frame_height", 8)]⟩⟩, BlockOutcome.raised 7) :=
  tempconfig_restores_then_propagates_error _ _ _ _ (by decide)

/-- Claim C3: `tempconfig` filters the overrides to keys already present in
the snapshot of the current config: an unknown key is dropped from the
filtered mapping, is present in the live config neither inside the scope nor
after it, and never causes an error — the outcome reaching the caller is
exactly the enclosed block's own outcome. -/
theorem tempconfig_drops_unknown_keys {α ε : Type} (s : ConfigState α)
    (temp : List (String × α)) (body : Block α ε) (k : String)
    (hk : s.config.contains k = false) :
    lookupKey (tempconfig.filterTemp temp s.config.copy) k = none ∧
    (tempconfig.enter temp s).config.contains k = false ∧
    (tempconfig.run temp body s).1.config.contains k = false ∧
    (tempconfig.run temp body s).2 = body.outcome := by
  refine ⟨?_, ?_, ?_, rfl⟩
  · exact lookupKey_filterTemp_of_not_contains temp s.config.copy k hk
  · rw [contains_congr_keys (tempconfig.enter temp s).config s.config k
      (enter_keys temp s)]
    exact hk
  · rw [contains_congr_keys (tempconfig.run temp body s).1.config s.config k
      (run_keys temp body s)]
    exact hk

/-- Witness for C3: the spec's own example — config `{"frame_height": 8.0}`,
overrides `{"frame_height": 100.0, "bogus_key": 1}`; the bogus key is dropped
everywhere and no error is raised. -/
theorem tempconfig_drops_unknown_keys_witness :
    lookupKey (tempconfig.filterTemp [("frame_height", (100 : Nat)), ("bogus_key", 1)]
        (⟨0, ⟨[("frame_height", 8)]⟩⟩ : ConfigState Nat).config.copy) "bogus_key"
      = none ∧
    (tempconfig.enter [("frame_height", (100 : Nat)), ("bogus_key", 1)]
        (⟨0, ⟨[("frame_height", 8)]⟩⟩ : ConfigState Nat)).config.contains "bogus_key"
      = false ∧
    (tempconfig.run [("frame_height", (100 : Nat)), ("bogus_key", 1)]
        (⟨[], BlockOutcome.ok⟩ : Block Nat Nat)
        ⟨0, ⟨[("frame_height", 8)]⟩⟩).1.config.contains "bogus_key" = false ∧
    (tempconfig.run [("frame_height", (100 : Nat)), ("bogus_key", 1)]
        (⟨[], BlockOutcome.ok⟩ : Block Nat Nat)
        ⟨0, ⟨[("frame_height", 8)]⟩⟩).2 = BlockOutcome.ok :=
  tempconfig_drops_unknown_keys _ _ _ "bogus_key" (by decide)

/-- Claim C4: for every override mapping and every overridden key that exists
in the config before entry, inside the scope the global config maps that key
to the override's value; after a normal exit it maps it to its pre-entry
value again. -/
theorem tempconfig_applies_override_values {α ε : Type} (s : ConfigState α)
    (temp : List (String × α)) (body : Block α ε) (k : String) (w : α)
    (hc : s.config.contains k = true)
    (hm : lookupKey temp k = some w)
    (_hok : body.outcome = BlockOutcome.ok)
    (hnd : s.config.keys.Nodup) :
    (tempconfig.enter temp s).config.get k = some w ∧
    (tempconfig.run temp body s).1.config.get k = s.config.get k := by
  constructor
  · show lookupKey (s.config.entries.map (updateEntry
        (tempconfig.filterTemp temp s.config.copy))) k = some w
    apply lookup_map_update_of_some
    · exact hc
    · rw [lookupKey_filterTemp_of_contains temp s.config.copy k hc]
      exact hm
  · rw [run_config_restored temp body s hnd]

/-- Witness for C4: the spec's example — `frame_height` is 8 before entry,
100 inside the scope, and 8 again after exit. -/
theorem tempconfig_applies_override_values_witness :
    (tempconfig.enter [("frame_height", (100 : Nat))]
        (⟨0, ⟨[("frame_height", 8)]⟩⟩ : ConfigState Nat)).config.get "frame_height"
      = some 100 ∧
    (tempconfig.run [("frame_height", (100 : Nat))]
        (⟨[], BlockOutcome.ok⟩ : Block Nat Nat)
        ⟨0, ⟨[("frame_height", 8)]⟩⟩).1.config.get "frame_height"
      = (⟨0, ⟨[("frame_height", 8)]⟩⟩ : ConfigState Nat).config.get "frame_height" :=
  tempconfig_applies_override_values _ _ _ _ _ (by decide) (by decide) rfl (by decide)

/-- Claim C5: the global name `config` is never rebound across a `tempconfig`
scope: both entering (applying the filtered overrides) and exiting (restoring)
are in-place updates, so the identity of the global config object is the same
before, inside, and after the scope. -/
theorem tempconfig_preserves_singleton_identity {α ε : Type} (s : ConfigState α)
    (temp : List (String × α)) (body : Block α ε) :
    (tempconfig.enter temp s).configId = s.configId ∧
    (tempconfig.run temp body s).1.configId = s.configId :=
  ⟨applyOp_configId s (ConfigOp.update (tempconfig.filterTemp temp s.config.copy)),
   run_configId temp body s⟩

/-- Claim C6: the key set of the config is fixed — no operation of this
excerpt adds or removes a key: any sequence of config mutations, entering a
`tempconfig` scope, and a whole `tempconfig` scope all leave the key list of
the global config unchanged. -/
theorem config_key_set_fixed {α ε : Type} (s : ConfigState α)
    (temp : List (String × α)) (body : Block α ε) (ops : List (ConfigOp α)) :
    (s.applyOps ops).config.keys = s.config.keys ∧
    (tempconfig.enter temp s).config.keys = s.config.keys ∧
    (tempconfig.run temp body s).1.config.keys = s.config.keys :=
  ⟨applyOps_keys ops s, enter_keys temp s, run_keys temp body s⟩

/-- Claim C7: when parsing and digestion succeed, module initialization
executes exactly once, in exactly this order: build the parser, construct the
logger triple, parse the CLI-context settings, suppress the two noisy
third-party loggers, digest the parser into the live config singleton, and
construct the `ManimFrame` view of that singleton (the frame wraps the same
object identity as the config binding). -/
theorem moduleInit_sequence {π ε α L K : Type} (mkParser : Except ε π)
    (mkLogger : π → L) (mkCliCtx : π → K)
    (digest : π → Except ε (ManimConfig α)) (p : π) (c : ManimConfig α)
    (hp : mkParser = Except.ok p) (hd : digest p = Except.ok c) :
    moduleInit mkParser mkLogger mkCliCtx digest
      = ([InitStep.buildParser, InitStep.makeLogger, InitStep.parseCliCtx,
          InitStep.suppressPIL, InitStep.suppressMatplotlib,
          InitStep.digestConfig, InitStep.makeFrame],
         Except.ok ⟨mkLogger p, mkCliCtx p, ⟨0, c⟩, ⟨0⟩⟩) := by
  subst hp
  show moduleInitDigest p mkLogger mkCliCtx digest = _
  unfold moduleInitDigest
  rw [hd]

/-- Witness for C7 at concrete collaborators. -/
theorem moduleInit_sequence_witness :
    moduleInit (Except.ok 1 : Except Nat Nat) (fun _ => (0 : Nat))
        (fun _ => (0 : Nat))
        (fun _ => (Except.ok ⟨[("frame_height", 8)]⟩ : Except Nat (ManimConfig Nat)))
      = ([InitStep.buildParser, InitStep.makeLogger, InitStep.parseCliCtx,
          InitStep.suppressPIL, InitStep.suppressMatplotlib,
          InitStep.digestConfig, InitStep.makeFrame],
         Except.ok ⟨0, 0, ⟨0, ⟨[("frame_height", 8)]⟩⟩, ⟨0⟩⟩) :=
  moduleInit_sequence _ _ _ _ 1 _ rfl rfl

/-- Counterexample to C8 as stated: in the initialization trace the two
suppression statements run after `parse_cli_ctx`, so they cannot be a side
effect of the `make_logger` call, which returns before `parse_cli_ctx` is
invoked — at a concrete successful initialization, the suppression event does
not precede the CLI-context event. -/
theorem suppression_not_during_make_logger :
    ¬ suppressionDuringMakeLogger
      (moduleInit (Except.ok 1 : Except Nat Nat) (fun _ => (0 : Nat))
        (fun _ => (0 : Nat))
        (fun _ => (Except.ok ⟨[("frame_height", 8)]⟩
          : Except Nat (ManimConfig Nat)))).1 := by
  unfold suppressionDuringMakeLogger
  decide

/-- Claim C8 (amended): the forcing of the "PIL" and "matplotlib" loggers to
the informational level is performed by two explicit module-level statements
of the initialization sequence, executed after `make_logger` has returned and
after `parse_cli_ctx`, and before digestion — not as a side effect inside the
`make_logger` factory. -/
theorem suppression_is_module_level_step {π ε α L K : Type}
    (mkParser : Except ε π) (mkLogger : π → L) (mkCliCtx : π → K)
    (digest : π → Except ε (ManimConfig α)) (p : π) (c : ManimConfig α)
    (hp : mkParser = Except.ok p) (hd : digest p = Except.ok c) :
    (moduleInit mkParser mkLogger mkCliCtx digest).1
      = [InitStep.buildParser, InitStep.makeLogger, InitStep.parseCliCtx,
         InitStep.suppressPIL, InitStep.suppressMatplotlib,
         InitStep.digestConfig, InitStep.makeFrame] ∧
    ¬ suppressionDuringMakeLogger (moduleInit mkParser mkLogger mkCliCtx digest).1 := by
  subst hp
  have htr : (moduleInit (Except.ok p) mkLogger mkCliCtx digest).1
      = [InitStep.buildParser, InitStep.makeLogger, InitStep.parseCliCtx,
         InitStep.suppressPIL, InitStep.suppressMatplotlib,
         InitStep.digestConfig, InitStep.makeFrame] := by
    show (moduleInitDigest p mkLogger mkCliCtx digest).1 = _
    unfold moduleInitDigest
    rw [hd]
  refine ⟨htr, ?_⟩
  rw [htr]
  unfold suppressionDuringMakeLogger
  decide

/-- Witness for the amended C8 at concrete collaborators. -/
theorem suppression_is_module_level_step_witness :
    (moduleInit (Except.ok 1 : Except Nat Nat) (fun _ => (0 : Nat))
        (fun _ => (0 : Nat))
        (fun _ => (Except.ok ⟨[("frame_width", 14)]⟩
          : Except Nat (ManimConfig Nat)))).1
      = [InitStep.buildParser, InitStep.makeLogger, InitStep.parseCliCtx,
         InitStep.suppressPIL, InitStep.suppressMatplotlib,
         InitStep.digestConfig, InitStep.makeFrame] ∧
    ¬ suppressionDuringMakeLogger (moduleInit (Except.ok 1 : Except Nat Nat)
        (fun _ => (0 : Nat)) (fun _ => (0 : Nat))
        (fun _ => (Except.ok ⟨[("frame_width", 14)]⟩
          : Except Nat (ManimConfig Nat)))).1 :=
  suppression_is_module_level_step _ _ _ _ 1 _ rfl rfl

/-- Claim C9: a failure of parser construction aborts initialization at once —
the trace stops at the parser step and the same error is the module's result;
a failure of digestion likewise ends the trace at the digestion step, the
frame is never constructed, no step runs twice, and the same error propagates
unchanged. -/
theorem moduleInit_errors_fatal {π ε α L K : Type} (mkParser : Except ε π)
    (mkLogger : π → L) (mkCliCtx : π → K)
    (digest : π → Except ε (ManimConfig α)) :
    (∀ e, mkParser = Except.error e →
      moduleInit mkParser mkLogger mkCliCtx digest
        = ([InitStep.buildParser], Except.error e)) ∧
    (∀ p e, mkParser = Except.ok p → digest p = Except.error e →
      moduleInit mkParser mkLogger mkCliCtx digest
        = ([InitStep.buildParser, InitStep.makeLogger, InitStep.parseCliCtx,
            InitStep.suppressPIL, InitStep.suppressMatplotlib,
            InitStep.digestConfig], Except.error e)) := by
  constructor
  · intro e he
    subst he
    rfl
  · intro p e hp hd
    subst hp
    show moduleInitDigest p mkLogger mkCliCtx digest = _
    unfold moduleInitDigest
    rw [hd]

/-- Witness for C9: a concrete parser failure (error 7) and a concrete
digestion failure (error 5). -/
theorem moduleInit_errors_fatal_witness :
    moduleInit (Except.error 7 : Except Nat Nat) (fun _ => (0 : Nat))
        (fun _ => (0 : Nat))
        (fun _ => (Except.ok ⟨[]⟩ : Except Nat (ManimConfig Nat)))
      = ([InitStep.buildParser], Except.error 7) ∧
    moduleInit (Except.ok 1 : Except Nat Nat) (fun _ => (0 : Nat))
        (fun _ => (0 : Nat))
        (fun _ => (Except.error 5 : Except Nat (ManimConfig Nat)))
      = ([InitStep.buildParser, InitStep.makeLogger, InitStep.parseCliCtx,
          InitStep.suppressPIL, InitStep.suppressMatplotlib,
          InitStep.digestConfig], Except.error 5) :=
  ⟨(moduleInit_errors_fatal (Except.error 7 : Except Nat Nat) (fun _ => (0 : Nat))
      (fun _ => (0 : Nat))
      (fun _ => (Except.ok ⟨[]⟩ : Except Nat (ManimConfig Nat)))).1 7 rfl,
   (moduleInit_errors_fatal (Except.ok 1 : Except Nat Nat) (fun _ => (0 : Nat))
      (fun _ => (0 : Nat))
      (fun _ => (Except.error 5 : Except Nat (ManimConfig Nat)))).2 1 5 rfl rfl⟩

/-- Claim C10: frame condition on entry — inside the scope, before the
enclosed block mutates anything, every key of the global config that is not a
key of the filtered overrides still has its pre-entry value. -/
theorem tempconfig_enter_frame_condition {α : Type} (s : ConfigState α)
    (temp : List (String × α)) (k : String)
    (h : lookupKey (tempconfig.filterTemp temp s.config.copy) k = none) :
    (tempconfig.enter temp s).config.get k = s.config.get k := by
  show lookupKey (s.config.entries.map (updateEntry
      (tempconfig.filterTemp temp s.config.copy))) k = lookupKey s.config.entries k
  exact lookup_map_update_of_none s.config.entries _ k h

/-- Witness for C10: `frame_height` is not overridden, so it keeps its value
inside the scope. -/
theorem tempconfig_enter_frame_condition_witness :
    (tempconfig.enter [("frame_width", (100 : Nat)), ("bogus_key", 1)]
        (⟨0, ⟨[("frame_height", 8), ("frame_width", 14)]⟩⟩ : ConfigState Nat)).config.get
        "frame_height"
      = (⟨0, ⟨[("frame_height", 8), ("frame_width", 14)]⟩⟩
          : ConfigState Nat).config.get "frame_height" :=
  tempconfig_enter_frame_condition _ _ _ (by decide)
